import Mathlib

/-!
Verification of the One-Click-AI discovery/resolution core against its
specification.  The Python sources are shallowly embedded: dictionaries
become association lists (insertion order preserved, keys unique in any
state reachable through the operations), `time.time()` floats become
rationals, fallible HTTP handlers become `Except`, and outbound network
calls (embedding provider, capability-document fetch) become explicit
inputs.  The keyed blake2b digest is abstracted as a function parameter
`H`; everything proved about signing holds for every such digest.
-/

/-! ## Python-style helpers -/

/-- Embeds `d.get(k)` on a Python dict embedded as an association list. -/
def dGet {α : Type} : List (String × α) → String → Option α
  | [], _ => none
  | (k', v) :: rest, k => if k' = k then some v else dGet rest k

/-- Embeds `d[k] = v` on a Python dict: replace in place if the key exists
(insertion order is preserved), otherwise append. -/
def dIns {α : Type} : List (String × α) → String → α → List (String × α)
  | [], k, v => [(k, v)]
  | (k', v') :: rest, k, v =>
      if k' = k then (k, v) :: rest else (k', v') :: dIns rest k v

/-- Embeds `d.pop(k, None)` / `del d[k]`: drop the first binding of `k`. -/
def dPop {α : Type} : List (String × α) → String → List (String × α)
  | [], _ => []
  | (k', v) :: rest, k => if k' = k then rest else (k', v) :: dPop rest k

/-- Number of bindings of a key (1 for any dict-like state). -/
def dCount {α : Type} : List (String × α) → String → Nat
  | [], _ => 0
  | (k', _) :: rest, k => (if k' = k then 1 else 0) + dCount rest k

/-- Python truthiness of an optional string: `None` and `""` are falsy. -/
def optTruthy : Option String → Option String
  | none => none
  | some s => if s = "" then none else some s

/-- Embeds `str.lower()` (ASCII, as used by the sources). -/
def pyLower (s : String) : String := String.mk (s.toList.map Char.toLower)

/-- Embeds `str.upper()` (ASCII, as used by the sources). -/
def pyUpper (s : String) : String := String.mk (s.toList.map Char.toUpper)

/-- Embeds `str.strip()`: drop leading and trailing whitespace. -/
def pyStrip (s : String) : String :=
  String.mk (((s.toList.dropWhile Char.isWhitespace).reverse.dropWhile
    Char.isWhitespace).reverse)

/-- Embeds `str.split(",")`: comma-separated pieces, empties kept. -/
def splitCommaAux : List Char → List Char → List String
  | [], acc => [String.mk acc.reverse]
  | c :: cs, acc =>
      if c = ',' then String.mk acc.reverse :: splitCommaAux cs []
      else splitCommaAux cs (c :: acc)

def pySplitComma (s : String) : List String := splitCommaAux s.toList []

/-- Code-point lexicographic order on strings (Python string `<`). -/
def charListLe : List Char → List Char → Bool
  | [], _ => true
  | _ :: _, [] => false
  | a :: as, b :: bs =>
      if a.toNat < b.toNat then true
      else if b.toNat < a.toNat then false
      else charListLe as bs

def strLe (a b : String) : Bool := charListLe a.toList b.toList

/-- List-of-characters prefix test. -/
def startsWithL : List Char → List Char → Bool
  | [], _ => true
  | _ :: _, [] => false
  | a :: as, b :: bs => a = b && startsWithL as bs

/-- Contiguous-sublist test on characters. -/
def infixOfL (needle : List Char) : List Char → Bool
  | [] => startsWithL needle []
  | c :: cs => startsWithL needle (c :: cs) || infixOfL needle cs

/-- Python `needle in hay` on strings (substring containment). -/
def containsSub (hay needle : String) : Bool :=
  infixOfL needle.toList hay.toList

/-- Python `round` (banker's rounding, used by `format` specs). -/
def pyRound (x : ℚ) : Int :=
  let f := ⌊x⌋
  let r := x - f
  if r < 1/2 then f
  else if r > 1/2 then f + 1
  else if f % 2 = 0 then f else f + 1

/-- Python `repr` of a list of strings, e.g. `['a', 'b']`
(as interpolated by f-strings into negotiation reasons). -/
def pyListRepr (xs : List String) : String :=
  "[" ++ String.intercalate ", " (xs.map (fun s => "\x27" ++ s ++ "\x27")) ++ "]"

/-! ## JSON values and canonical serialisation (`shared/nanda_crypto.py`)

`_canonical` is `json.dumps(obj, sort_keys=True, separators=(",", ":"))`.
Payload values occurring in the embedded code are null, booleans,
strings, integers, decimal numbers, arrays and objects. -/

inductive JVal where
  | jnull
  | jbool (b : Bool)
  | jstr (s : String)
  | jint (n : Int)
  | jrat (q : ℚ)
  | jarr (xs : List JVal)
  | jobj (fs : List (String × JVal))

/-- JSON string escaping for the characters appearing in embedded payloads. -/
def jsonEscapeChar (c : Char) : String :=
  if c = '"' then "\\\"" else if c = '\\' then "\\\\" else String.singleton c

def jsonEscape (s : String) : String :=
  String.join (s.toList.map jsonEscapeChar)

def jstrRender (s : String) : String := "\"" ++ jsonEscape s ++ "\""

/-- Decimal rendering of the (finite-decimal) numbers the code serialises. -/
def numStr (q : ℚ) : String :=
  if q.den = 1 then toString q.num
  else toString q.num ++ "/" ++ toString q.den

/-- Key-sorted field list: `sort_keys=True` (a stable sort; Python's
sort is stable, and stable sorts of a total preorder agree). -/
def sortPairs (fs : List (String × String)) : List (String × String) :=
  List.insertionSort (fun a b => strLe a.1 b.1 = true) fs

mutual

/-- Embeds `json.dumps(·, sort_keys=True, separators=(",", ":"))`: values are
rendered recursively and object fields emitted in key order. -/
def jvalSer : JVal → String
  | .jnull => "null"
  | .jbool b => if b then "true" else "false"
  | .jstr s => jstrRender s
  | .jint n => toString n
  | .jrat q => numStr q
  | .jarr xs => "[" ++ String.intercalate "," (jvalSerList xs) ++ "]"
  | .jobj fs =>
      "\x7b" ++
        String.intercalate ","
          ((sortPairs (jvalSerPairs fs)).map
            (fun kv => jstrRender kv.1 ++ ":" ++ kv.2)) ++
      "\x7d"

def jvalSerList : List JVal → List String
  | [] => []
  | x :: xs => jvalSer x :: jvalSerList xs

def jvalSerPairs : List (String × JVal) → List (String × String)
  | [] => []
  | (k, v) :: fs => (k, jvalSer v) :: jvalSerPairs fs

end

/-- Embeds `_canonical(obj)`: deterministic serialisation of a payload dict. -/
def canonicalize (payload : List (String × JVal)) : String :=
  jvalSer (.jobj payload)

/-- Embeds `str.encode()` for the ASCII strings handled here. -/
def strBytes (s : String) : List Nat := s.toList.map Char.toNat

def hexDigit (n : Nat) : Char := "0123456789abcdef".toList.getD (n % 16) '0'

/-- Embeds `.hexdigest()`: two lowercase hex characters per byte. -/
def hexEncodeChars : List Nat → List Char
  | [] => []
  | b :: bs => hexDigit (b / 16 % 16) :: hexDigit b :: hexEncodeChars bs

def hexEncode (bytes : List Nat) : String := String.mk (hexEncodeChars bytes)

/-- Embeds `sign_document(payload, key)`: keyed 32-byte digest of the canonical
serialisation, hex encoded.  `H` abstracts `hashlib.blake2b(·, key=·,
digest_size=32).digest()`, an arbitrary fixed function of data and key. -/
def sign_document (H : List Nat → List Nat → List Nat)
    (payload : List (String × JVal)) (key : String) : String :=
  hexEncode (H (strBytes (canonicalize payload)) (strBytes key))

/-- Embeds `verify_signature(payload, signature, key)`: recompute and compare
(`secrets.compare_digest` is equality). -/
def verify_signature (H : List Nat → List Nat → List Nat)
    (payload : List (String × JVal)) (signature : String) (key : String) : Bool :=
  sign_document H payload key == signature

/-! ## Lean registry store (`src/registry/store.py`, `src/registry/main.py`)

`AgentAddrF` is `shared/agent_facts.py`'s `AgentAddr`.  `time.time()`
values are rationals supplied explicitly. -/

structure AgentAddrF where
  agent_id : String
  agent_name : String
  primary_facts_url : String
  private_facts_url : Option String := none
  adaptive_resolver_url : Option String := none
  ttl : Int := 3600
  signature : String := ""
  registered_at : Option String := none
  authoritative_ns : Option String := none
  zone : Option String := none
deriving DecidableEq, Repr

/-- Embeds `model_dump(mode="json", exclude={"signature"})` of an `AgentAddrF`:
every field but the signature, optionals as JSON null. -/
def addrPayload (a : AgentAddrF) : List (String × JVal) :=
  let optJ : Option String → JVal := fun o => match o with
    | none => .jnull
    | some s => .jstr s
  [("agent_id", .jstr a.agent_id),
   ("agent_name", .jstr a.agent_name),
   ("primary_facts_url", .jstr a.primary_facts_url),
   ("private_facts_url", optJ a.private_facts_url),
   ("adaptive_resolver_url", optJ a.adaptive_resolver_url),
   ("ttl", .jint a.ttl),
   ("registered_at", optJ a.registered_at),
   ("authoritative_ns", optJ a.authoritative_ns),
   ("zone", optJ a.zone)]

/-- Embeds `CachedEntry`: the address plus expiry bookkeeping taken at
registration time (`expires_at = registered_at + addr.ttl`). -/
structure CachedEntry where
  addr : AgentAddrF
  registered_at : ℚ
  expires_at : ℚ
deriving DecidableEq, Repr

def mkCachedEntry (a : AgentAddrF) (now : ℚ) : CachedEntry :=
  { addr := a, registered_at := now, expires_at := now + (a.ttl : ℚ) }

/-- Embeds `CachedEntry.expired` at an explicit observation time. -/
def entryExpired (e : CachedEntry) (now : ℚ) : Bool := decide (now > e.expires_at)

/-- Embeds `NandaIndexStore`: entries keyed by `agent_id`, secondary index
`agent_name -> agent_id`. -/
structure NandaIndexStore where
  entries : List (String × CachedEntry)
  nameIndex : List (String × String)
deriving DecidableEq, Repr

def emptyStore : NandaIndexStore := { entries := [], nameIndex := [] }

/-- Embeds `NandaIndexStore.register`. -/
def storeRegister (st : NandaIndexStore) (a : AgentAddrF) (now : ℚ) : NandaIndexStore :=
  { entries := dIns st.entries a.agent_id (mkCachedEntry a now),
    nameIndex := dIns st.nameIndex a.agent_name a.agent_id }

/-- Embeds `NandaIndexStore.resolve_by_id`. -/
def storeResolveById (st : NandaIndexStore) (agent_id : String) (now : ℚ) :
    Option AgentAddrF :=
  match dGet st.entries agent_id with
  | some e => if entryExpired e now then none else some e.addr
  | none => none

/-- Embeds `NandaIndexStore.resolve_by_name` (`if agent_id:` is Python truthiness,
so an empty id short-circuits to `None`). -/
def storeResolveByName (st : NandaIndexStore) (agent_name : String) (now : ℚ) :
    Option AgentAddrF :=
  match dGet st.nameIndex agent_name with
  | some agent_id =>
      if agent_id ≠ "" then storeResolveById st agent_id now else none
  | none => none

/-- One filter pass of `NandaIndexStore.discover` over a cached entry. -/
def discoverKeep (now : ℚ) (role capability jurisdiction query : Option String)
    (e : CachedEntry) : Bool :=
  if e.expires_at < now then false
  else
    let a := e.addr
    (match optTruthy role with
     | some r =>
         containsSub (pyLower a.agent_id) (pyLower r) ||
         containsSub (pyLower a.agent_name) (pyLower r)
     | none => true) &&
    (match optTruthy capability with
     | some c =>
         containsSub (pyLower a.agent_name) (pyLower c) ||
         containsSub (pyLower a.agent_id) (pyLower c)
     | none => true) &&
    (match optTruthy jurisdiction with
     | some j => containsSub (pyLower a.agent_name) (pyLower j)
     | none => true) &&
    (match optTruthy query with
     | some q =>
         containsSub (pyLower a.agent_id) (pyLower q) ||
         containsSub (pyLower a.agent_name) (pyLower q) ||
         containsSub (pyLower a.primary_facts_url) (pyLower q)
     | none => true)

/-- Embeds `NandaIndexStore.discover`. -/
def storeDiscover (st : NandaIndexStore) (now : ℚ)
    (role capability jurisdiction query : Option String) : List AgentAddrF :=
  (st.entries.filter (fun p => discoverKeep now role capability jurisdiction query p.2)).map
    (fun p => p.2.addr)

/-- Embeds `NandaIndexStore.list_all` (keeps entries with `expires_at >= now`). -/
def storeListAll (st : NandaIndexStore) (now : ℚ) : List AgentAddrF :=
  (st.entries.filter (fun p => decide (p.2.expires_at ≥ now))).map (fun p => p.2.addr)

/-- Embeds `NandaIndexStore.remove`: pop by id; when present also pop the
record's current name from the secondary index.  Returns the found flag. -/
def storeRemove (st : NandaIndexStore) (agent_id : String) :
    NandaIndexStore × Bool :=
  match dGet st.entries agent_id with
  | some e =>
      ({ entries := dPop st.entries agent_id,
         nameIndex := dPop st.nameIndex e.addr.agent_name }, true)
  | none => (st, false)

/-- Embeds `NandaIndexStore.count`. -/
def storeCount (st : NandaIndexStore) : Nat := st.entries.length

/-- Embeds `POST /register` (`registry/main.py::register_agent`): sign the
payload (signature excluded), *then* stamp `registered_at`, then upsert.
Returns the stored record and the new store. -/
def registerAgent (H : List Nat → List Nat → List Nat) (secret : String)
    (st : NandaIndexStore) (addr : AgentAddrF) (nowIso : String) (now : ℚ) :
    AgentAddrF × NandaIndexStore :=
  let payload := addrPayload addr
  let addr1 := { addr with signature := sign_document H payload secret }
  let addr2 := { addr1 with registered_at := some nowIso }
  (addr2, storeRegister st addr2 now)

/-- Embeds `DELETE /agents/{agent_id}` (`registry/main.py::deregister_agent`):
404 when the store reports the id absent. -/
def deregisterAgent (st : NandaIndexStore) (agent_id : String) :
    Except String (NandaIndexStore × String) :=
  let r := storeRemove st agent_id
  if r.2 then .ok (r.1, agent_id)
  else .error "404: Agent not found"

/-- Embeds `POST /verify` (`registry/main.py::verify_agent_addr`): drop the
signature field and recheck. -/
def verifyAgentAddr (H : List Nat → List Nat → List Nat) (secret : String)
    (rec : AgentAddrF) : Bool :=
  verify_signature H (addrPayload rec) rec.signature secret

/-! ## NANDA index registry (`src/nanda-index/registry.py`)

`_registry` maps `agent_id` to a stored dict; embedded as `IndexRegistry`.
The stored `registered_at` ISO string is modelled by `RegAt`: a parseable
timestamp, an unparseable string, or absent. -/

inductive RegAt where
  | absent
  | unparseable
  | stamp (t : ℚ)
deriving DecidableEq, Repr

/-- The dict stored per agent by `register_agent` (an `AgentAddr` dump
from `shared/schemas.py` plus `skill_descriptions`). -/
structure AgentDict where
  agent_id : String
  agent_name : String
  facts_url : String
  skills : List String := []
  skill_descriptions : List (String × String) := []
  region : Option String := none
  ttl : Int := 3600
  registered_at : RegAt := .absent
  signature : Option String := none
deriving DecidableEq, Repr

abbrev IndexRegistry : Type := List (String × AgentDict)

/-- Embeds `POST /register` body (`RegisterRequest`). -/
structure RegisterReq where
  agent_id : String
  agent_name : String
  facts_url : String
  skills : List String := []
  skill_descriptions : List (String × String) := []
  region : Option String := none
  ttl : Int := 3600
  signature : Option String := none
deriving DecidableEq, Repr

/-- The dict built and upserted by `register_agent` (stamps
`registered_at = datetime.now(timezone.utc)`). -/
def bodyToDict (b : RegisterReq) (now : ℚ) : AgentDict :=
  { agent_id := b.agent_id, agent_name := b.agent_name,
    facts_url := b.facts_url, skills := b.skills,
    skill_descriptions := b.skill_descriptions, region := b.region,
    ttl := b.ttl, registered_at := .stamp now, signature := b.signature }

/-- Embeds `POST /register` (`nanda-index/registry.py::register_agent`) acting on
`_registry` (the embedding-vector side store is separate state that no
registry read below consults). -/
def indexRegisterAgent (reg : IndexRegistry) (b : RegisterReq) (now : ℚ) :
    IndexRegistry :=
  dIns reg b.agent_id (bodyToDict b now)

/-- Embeds `GET /lookup/{agent_id}` (`lookup_agent`): a plain dict read, no TTL
check; 404 only when the id is absent. -/
def lookupAgent (reg : IndexRegistry) (agent_id : String) :
    Except String AgentDict :=
  match dGet reg agent_id with
  | some d => .ok d
  | none => .error "404: Agent not found."

/-- Embeds `GET /list` (`list_agents`): every stored record, no TTL check. -/
def listAgents (reg : IndexRegistry) : List AgentDict :=
  reg.map (fun p => p.2)

/-- Keyword list for `GET /search`: comma-split, trimmed, lowered,
empties dropped. -/
def searchKeywords (skills : Option String) : List String :=
  match optTruthy skills with
  | some s => ((pySplitComma s).map (fun kw => pyLower (pyStrip kw))).filter
      (fun kw => kw ≠ "")
  | none => []

/-- Region filter for `GET /search` (`region.strip().upper() if region
else None`, then applied only when truthy). -/
def searchRegionFilter (region : Option String) : Option String :=
  match optTruthy region with
  | some r => optTruthy (some (pyUpper (pyStrip r)))
  | none => none

/-- Free-text filter for `GET /search`. -/
def searchQFilter (q : Option String) : Option String :=
  match optTruthy q with
  | some s => optTruthy (some (pyLower (pyStrip s)))
  | none => none

/-- One filter pass of `GET /search` over a stored dict (AND of the
skill-keyword, region and free-text filters; no TTL check anywhere). -/
def searchKeep (kws : List String) (regionFilter qLower : Option String)
    (d : AgentDict) : Bool :=
  (if kws.isEmpty then true
   else
     let agent_skills := d.skills.map pyLower
     kws.any (fun kw => agent_skills.any (fun sk => containsSub sk kw))) &&
  (match regionFilter with
   | some rf => pyUpper ((d.region).getD "") == rf
   | none => true) &&
  (match qLower with
   | some ql =>
       containsSub (pyLower d.agent_id) ql || containsSub (pyLower d.agent_name) ql
   | none => true)

/-- Embeds `GET /search` (`search_agents`). -/
def searchAgents (reg : IndexRegistry) (skills region q : Option String) :
    List AgentDict :=
  let kws := searchKeywords skills
  let rf := searchRegionFilter region
  let ql := searchQFilter q
  (reg.map (fun p => p.2)).filter (searchKeep kws rf ql)

/-! ### `POST /resolve` (`resolve_agents`): three-tier matching -/

/-- Embeds `POST /resolve` body (`ResolveRequest`); the context dict is read only
through `context.get("region", "")`, the compliance and lead-time reads
feed constant placeholder credits. -/
structure ResolveReq where
  query : String
  skill_hint : String := ""
  ctxRegion : String := ""
  min_score : ℚ := 0.65
deriving DecidableEq, Repr

/-- An intermediate candidate (`candidates` list elements). -/
structure Candidate where
  agent : AgentDict
  matched_skill : String
  relevance_score : ℚ
  match_reason : String
deriving DecidableEq, Repr

/-- Tier 1 — exact `skill_hint` membership in the stored skill list. -/
def exactMatches (reg : IndexRegistry) (hint : String) : List Candidate :=
  (reg.map (fun p => p.2)).filterMap (fun a =>
    if hint ∈ a.skills then
      some { agent := a, matched_skill := hint, relevance_score := 1,
             match_reason := "exact" }
    else none)

/-- Tier 2 — embedding similarity over the cached per-skill vectors.
`E` is the embedding type and `sim` the cosine similarity; both abstract
the numpy float computation.  Pairs scoring `≥ 0.6` whose agent is still
registered become candidates. -/
def semanticMatches {E : Type} (reg : IndexRegistry)
    (embeddings : List ((String × String) × E)) (qEmb : E) (sim : E → E → ℚ) :
    List Candidate :=
  embeddings.filterMap (fun kv =>
    let agent_id := kv.1.1
    let skill_id := kv.1.2
    let s := sim qEmb kv.2
    if s ≥ 0.6 then
      match dGet reg agent_id with
      | some a =>
          some { agent := a, matched_skill := skill_id, relevance_score := s,
                 match_reason := "semantic" }
      | none => none
    else none)

/-- Embeds `str.split()` (no argument): whitespace runs as separators, no empty
pieces. -/
def splitWsAux : List Char → List Char → List String
  | [], acc => if acc.isEmpty then [] else [String.mk acc.reverse]
  | c :: cs, acc =>
      if c.isWhitespace then
        (if acc.isEmpty then [] else [String.mk acc.reverse]) ++ splitWsAux cs []
      else splitWsAux cs (c :: acc)

def pySplitWs (s : String) : List String := splitWsAux s.toList []

/-- Query keywords for tier 3: lowercase whitespace split, words of
length `> 2` (the code's per-piece `strip()` is a no-op after `split()`). -/
def queryKeywords (query : String) : List String :=
  (pySplitWs (pyLower query)).filter (fun kw => kw.length > 2)

/-- First skill of an agent whose `id + " " + description` text contains
a query keyword, with the keyword-fraction relevance (tier 3 body). -/
def substrFirstHit (kws : List String) (descs : List (String × String)) :
    List String → Option (String × ℚ)
  | [] => none
  | skill_id :: rest =>
      let combined_text :=
        pyLower skill_id ++ " " ++ pyLower ((dGet descs skill_id).getD "")
      if kws.any (fun kw => containsSub combined_text kw) then
        let match_count := (kws.filter (fun kw => containsSub combined_text kw)).length
        some (skill_id, min ((match_count : ℚ) / (kws.length : ℚ)) 1)
      else substrFirstHit kws descs rest

/-- Tier 3 — substring fallback; one candidate per agent (first hit). -/
def substrMatches (reg : IndexRegistry) (query : String) : List Candidate :=
  let kws := queryKeywords query
  (reg.map (fun p => p.2)).filterMap (fun a =>
    match substrFirstHit kws a.skill_descriptions a.skills with
    | some hit =>
        some { agent := a, matched_skill := hit.1, relevance_score := hit.2,
               match_reason := "substring" }
    | none => none)

/-- Tier 1 with its guard: runs only for a truthy `skill_hint`. -/
def tier1 (reg : IndexRegistry) (hint : String) : List Candidate :=
  if hint ≠ "" then exactMatches reg hint else []

/-- The semantic candidates for an optional query embedding: a failed
embedding (`qEmb = none`) contributes nothing. -/
def semanticOf {E : Type} (reg : IndexRegistry)
    (embeddings : List ((String × String) × E)) (qEmb : Option E)
    (sim : E → E → ℚ) : List Candidate :=
  match qEmb with
  | some e => semanticMatches reg embeddings e sim
  | none => []

/-- Tier 2 with its guard: runs only when tier 1 produced nothing and
embeddings are usable with a truthy query. -/
def tier2 {E : Type} (reg : IndexRegistry)
    (embeddings : List ((String × String) × E)) (useEmb : Bool)
    (qEmb : Option E) (sim : E → E → ℚ) (query : String)
    (c1 : List Candidate) : List Candidate :=
  if c1.isEmpty ∧ useEmb ∧ query ≠ "" then
    semanticOf reg embeddings qEmb sim
  else []

/-- Phase 1 of `resolve_agents`: the tier guards exactly as coded —
tier 3 (substring) only when tiers 1 and 2 produced no candidate and the
query is truthy. -/
def resolveCandidates {E : Type} (reg : IndexRegistry)
    (embeddings : List ((String × String) × E)) (useEmb : Bool)
    (qEmb : Option E) (sim : E → E → ℚ) (query hint : String) :
    List Candidate :=
  let c1 := tier1 reg hint
  let c2 := tier2 reg embeddings useEmb qEmb sim query c1
  if (c1 ++ c2).isEmpty ∧ query ≠ "" then substrMatches reg query else c1 ++ c2

/-- Phase 2 of `resolve_agents`: additive context score, capped at 1. -/
def contextScore (requester_region : String) (now : ℚ) (a : AgentDict) : ℚ :=
  let s1 :=
    if requester_region ≠ "" ∧ pyUpper ((a.region).getD "") = requester_region
    then 0.3
    else if requester_region = "" then 0.15 else 0
  let s2 := (0.15 : ℚ)
  let s3 := (0.1 : ℚ)
  let s4 :=
    match a.registered_at with
    | .stamp t => if now - t < (a.ttl : ℚ) then (0.2 : ℚ) else 0
    | .unparseable => 0.1
    | .absent => 0.1
  min (s1 + s2 + s3 + s4) 1

/-- Embeds `ResolvedAgent` response rows. -/
structure ResolvedAgent where
  agent_id : String
  agent_name : String
  facts_url : String
  skills : List String
  region : Option String
  relevance_score : ℚ
  context_score : ℚ
  combined_score : ℚ
  matched_skill : String
  match_reason : String
deriving DecidableEq, Repr

def mkResolved (c : Candidate) (ctx : ℚ) : ResolvedAgent :=
  { agent_id := c.agent.agent_id, agent_name := c.agent.agent_name,
    facts_url := c.agent.facts_url, skills := c.agent.skills,
    region := c.agent.region, relevance_score := c.relevance_score,
    context_score := ctx,
    combined_score := 0.6 * c.relevance_score + 0.4 * ctx,
    matched_skill := c.matched_skill, match_reason := c.match_reason }

/-- Embeds `POST /resolve` (`resolve_agents`): phases 1-3 — tiered candidates,
context scoring, 60/40 blend, `min_score` filter, stable descending sort
by `combined_score`. -/
def resolveAgents {E : Type} (reg : IndexRegistry)
    (embeddings : List ((String × String) × E)) (useEmb : Bool)
    (qEmb : Option E) (sim : E → E → ℚ) (req : ResolveReq) (now : ℚ) :
    List ResolvedAgent :=
  let cands := resolveCandidates reg embeddings useEmb qEmb sim req.query req.skill_hint
  let requester_region := pyUpper req.ctxRegion
  let results := cands.map (fun c => mkResolved c (contextScore requester_region now c.agent))
  let kept := results.filter (fun r => decide (r.combined_score ≥ req.min_score))
  List.insertionSort (fun a b => b.combined_score ≤ a.combined_score) kept

/-- Embeds `DELETE /agents/{agent_id}` (`nanda-index/registry.py::delete_agent`):
404 when absent, otherwise drop the binding. -/
def indexDeleteAgent (reg : IndexRegistry) (agent_id : String) :
    Except String IndexRegistry :=
  match dGet reg agent_id with
  | some _ => .ok (dPop reg agent_id)
  | none => .error "404: Agent not found."

/-! ## Adaptive resolver (`src/resolver/main.py`)

Network effects become explicit inputs: the index lookup result
(`addrOpt`), the capability-document fetch (`factsOpt`, `none` covering
both fetch failure and non-200), the haversine float computation (`hav`),
and `random.choice` (an index `rand`). -/

structure RequesterCtx where
  requester_id : Option String := none
  geo_location : Option String := none
  geo_lat : Option ℚ := none
  geo_lon : Option ℚ := none
  network_cidr : Option String := none
  qos_requirements : Option (List (String × JVal)) := none
  security_level : Option String := none
  cost_budget : Option ℚ := none
  session_type : Option String := none

/-- Embeds `getattr(ctx, field, None) is not None` over the `RequesterContext`
fields; unknown names read as `None`. -/
def ctxHasField (ctx : RequesterCtx) (field : String) : Bool :=
  if field = "requester_id" then ctx.requester_id.isSome
  else if field = "geo_location" then ctx.geo_location.isSome
  else if field = "geo_lat" then ctx.geo_lat.isSome
  else if field = "geo_lon" then ctx.geo_lon.isSome
  else if field = "network_cidr" then ctx.network_cidr.isSome
  else if field = "qos_requirements" then ctx.qos_requirements.isSome
  else if field = "security_level" then ctx.security_level.isSome
  else if field = "cost_budget" then ctx.cost_budget.isSome
  else if field = "session_type" then ctx.session_type.isSome
  else false

structure DeploymentResourceL where
  resource_id : String
  resource_type : String
  geo_location : String := ""
  geo_lat : Option ℚ := none
  geo_lon : Option ℚ := none
  hardware : List String := []
  bandwidth_mbps : Option ℚ := none
  region : String := ""

structure DeploymentRec where
  agent_id : String
  resources : List DeploymentResourceL := []
  deployment_mode : String := "single-origin"
  mobility : Bool := false
  max_concurrent_sessions : Int := 100
  current_load : ℚ := 0

/-- The parts of a fetched capability document the resolver reads
(`context_requirements`, `endpoints.static`, `endpoints.rotating`). -/
structure FactsDoc where
  context_requirements : List String := []
  endpoints_static : List String := []
  endpoints_rotating : List String := []

structure InvitationL where
  agent_id : String
  negotiation_url : String
  reason : String
  required_context : List String
  trust_security_level : String
  ttl : Int

structure TailoredL where
  agent_id : String
  agent_name : String
  endpoint : String
  transport : String
  ttl : Int
  context_used : List (String × JVal)
  negotiation_required : Bool
  negotiation_url : Option String := none
  comms_spec : Option JVal := none
  signature : String := ""

inductive ResolveOutcome where
  | notFound (detail : String)
  | referral (agent_name referral_to zone : String)
  | invitation (inv : InvitationL)
  | tailored (t : TailoredL)

/-- Embeds `GEO_LOOKUP`, in source (dict-insertion) order. -/
def GEO_LOOKUP : List (String × (ℚ × ℚ)) :=
  [("maranello", (44.53, 10.86)), ("italy", (41.90, 12.50)),
   ("stuttgart", (48.78, 9.18)), ("germany", (51.16, 10.45)),
   ("eu", (50.85, 4.35)), ("london", (51.51, -0.13)),
   ("new york", (40.71, -74.01)), ("us", (39.83, -98.58)),
   ("global", (0, 0))]

/-- Embeds `_geo_to_latlon`: first lookup key contained in the lowered label. -/
def geoToLatLon (geo : String) : Option (ℚ × ℚ) :=
  (GEO_LOOKUP.find? (fun kv => containsSub (pyLower geo) kv.1)).map (fun kv => kv.2)

/-- Distance of one resource from the requester (`10000.0` penalty for a
resource without coordinates). -/
def resourceDist (hav : ℚ → ℚ → ℚ → ℚ → ℚ) (la lo : ℚ)
    (r : DeploymentResourceL) : ℚ :=
  match r.geo_lat, r.geo_lon with
  | some glat, some glon => hav la lo glat glon
  | _, _ => 10000

/-- Embeds `_pick_best_resource`: strict-improvement scan, first-listed wins
ties; without requester coordinates the first resource is returned. -/
def pickBestResource (hav : ℚ → ℚ → ℚ → ℚ → ℚ)
    (resources : List DeploymentResourceL) (reqLat reqLon : Option ℚ) :
    Option DeploymentResourceL :=
  match resources with
  | [] => none
  | r0 :: _ =>
      match reqLat, reqLon with
      | some la, some lo =>
          (resources.foldl
            (fun best r =>
              let d := resourceDist hav la lo r
              match best with
              | none => some (r, d)
              | some (b, bd) => if d < bd then some (r, d) else some (b, bd))
            none).map (fun p => p.1)
      | _, _ => some r0

/-- Embeds `f"{load:.0%}"`: percentage with zero decimals (banker's rounding). -/
def pctStr (load : ℚ) : String := toString (pyRound (load * 100)) ++ "%"

/-- The computed `missing_context`: required fields (learned from a
successful facts fetch only) absent from the requester context. -/
def missingContext (factsOpt : Option FactsDoc) (ctx : RequesterCtx) :
    List String :=
  match factsOpt with
  | some f => f.context_requirements.filter (fun field => ¬ ctxHasField ctx field)
  | none => []

def reasonMissing (missing : List String) : String :=
  "Target requires context: " ++ pyListRepr missing

def reasonZeroTrust : String := "Zero-trust security requires mutual attestation"

def reasonHighLoad (load : ℚ) : String :=
  "Agent at high load (" ++ pctStr load ++ "), QoS negotiation required"

/-- The negotiation reason, by trigger priority exactly as coded: missing
context first, then zero-trust, then high load. -/
def negotiationReason (deps : List (String × DeploymentRec)) (addr : AgentAddrF)
    (factsOpt : Option FactsDoc) (ctx : RequesterCtx) : String :=
  let missing := missingContext factsOpt ctx
  if ¬ missing.isEmpty then reasonMissing missing
  else if ctx.security_level = some "zero-trust" then reasonZeroTrust
  else reasonHighLoad (((dGet deps addr.agent_id).map (fun d => d.current_load)).getD 0)

/-- Python truthiness of a float option (`0.0` is falsy). -/
def ratTruthy : Option ℚ → Bool
  | none => false
  | some q => decide (q ≠ 0)

/-- Python truthiness of an optional dict (`None` and `{}` falsy). -/
def dictTruthy {α : Type} : Option (List (String × α)) → Bool
  | none => false
  | some l => !l.isEmpty

/-- Embeds `round(x, 1)`. -/
def round1 (x : ℚ) : ℚ := (pyRound (x * 10) : ℚ) / 10

/-- Embeds `model_dump(mode="json", exclude={"signature"})` of a tailored
response. -/
def tailoredPayload (t : TailoredL) : List (String × JVal) :=
  [("agent_id", .jstr t.agent_id),
   ("agent_name", .jstr t.agent_name),
   ("endpoint", .jstr t.endpoint),
   ("transport", .jstr t.transport),
   ("ttl", .jint t.ttl),
   ("context_used", .jobj t.context_used),
   ("negotiation_required", .jbool t.negotiation_required),
   ("negotiation_url", match t.negotiation_url with
     | none => .jnull
     | some u => .jstr u),
   ("comms_spec", match t.comms_spec with
     | none => .jnull
     | some v => v)]

/-- Embeds `POST /resolve` (`resolver/main.py::adaptive_resolve`). -/
def adaptiveResolve (H : List Nat → List Nat → List Nat) (secret : String)
    (zoneRefs : List (String × String)) (deps : List (String × DeploymentRec))
    (hav : ℚ → ℚ → ℚ → ℚ → ℚ) (addrOpt : Option AgentAddrF)
    (factsOpt : Option FactsDoc) (ctx : RequesterCtx) (rand : Nat) :
    ResolveOutcome :=
  match addrOpt with
  | none => .notFound "Agent not found in index"
  | some addr =>
    -- Step 2: zone referral short-circuit
    match
      (match optTruthy addr.zone with
       | some z => (dGet zoneRefs z).map (fun url => (z, url))
       | none => none) with
    | some zu => .referral addr.agent_name zu.2 zu.1
    | none =>
      -- Step 3: deployment record
      let deployment := dGet deps addr.agent_id
      -- Step 4: missing context from fetched facts
      let missing := missingContext factsOpt ctx
      -- Step 5: negotiation triggers, in code order
      let zt := ctx.security_level = some "zero-trust"
      let highLoad :=
        match deployment with
        | some d => decide (d.current_load > 0.9)
        | none => false
      if ¬ missing.isEmpty ∨ zt ∨ highLoad = true then
        let reason := negotiationReason deps addr factsOpt ctx
        .invitation
          { agent_id := addr.agent_id,
            negotiation_url :=
              (match optTruthy addr.adaptive_resolver_url with
               | some u => u
               | none => addr.primary_facts_url) ++ "/negotiate",
            reason := reason,
            required_context := missing,
            trust_security_level := (optTruthy ctx.security_level).getD "authenticated",
            ttl := 60 }
      else
        -- Step 6: tailored endpoint selection
        let baseLoc : Option ℚ × Option ℚ × Option String :=
          match ctx.geo_lat with
          | some _ => (ctx.geo_lat, ctx.geo_lon, none)
          | none =>
            match optTruthy ctx.geo_location with
            | some g =>
                match geoToLatLon g with
                | some c => (some c.1, some c.2, some g)
                | none => (none, ctx.geo_lon, none)
            | none => (none, ctx.geo_lon, none)
        let req_lat := baseLoc.1
        let req_lon := baseLoc.2.1
        let cu0 : List (String × JVal) :=
          match baseLoc.2.2 with
          | some g => [("geo_resolved", JVal.jstr g)]
          | none => []
        let bestRes :=
          match deployment with
          | some dep =>
              if ¬ dep.resources.isEmpty then
                pickBestResource hav dep.resources req_lat req_lon
              else none
          | none => none
        let cu1 :=
          match bestRes with
          | some best =>
              cu0 ++ [("geo_nearest_resource", JVal.jstr best.resource_id),
                      ("resource_location", JVal.jstr best.geo_location)] ++
              (if ratTruthy req_lat ∧ ratTruthy best.geo_lat then
                [("distance_km", JVal.jrat (round1
                  (hav (req_lat.getD 0) (req_lon.getD 0)
                       (best.geo_lat.getD 0) (best.geo_lon.getD 0))))]
               else [])
          | none => cu0
        let epSel : String × Option String :=
          match factsOpt with
          | some f =>
              if ¬ f.endpoints_rotating.isEmpty then
                (f.endpoints_rotating.getD (rand % f.endpoints_rotating.length) "",
                 some "rotating_pool")
              else if ¬ f.endpoints_static.isEmpty then
                (f.endpoints_static.headD "", some "static_primary")
              else ("", none)
          | none =>
              (addr.primary_facts_url.replace "/.well-known/agent-facts" "",
               some "derived_from_facts_url")
        let cu2 := cu1 ++
          (match epSel.2 with
           | some sel => [("selection", JVal.jstr sel)]
           | none => [])
        let cu3 := cu2 ++
          (match deployment with
           | some d =>
               [("agent_load", JVal.jstr (pctStr d.current_load)),
                ("deployment_mode", JVal.jstr d.deployment_mode)]
           | none => [])
        let cu4 := cu3 ++
          (if dictTruthy ctx.qos_requirements then
            [("qos_applied", JVal.jobj ((ctx.qos_requirements).getD []))]
           else [])
        let transport :=
          if ctx.session_type = some "streaming" then "wss"
          else if ctx.session_type = some "batch" then "https" else "https"
        let cu5 := cu4 ++ [("transport", JVal.jstr transport)]
        let t0 : TailoredL :=
          { agent_id := addr.agent_id, agent_name := addr.agent_name,
            endpoint := epSel.1, transport := transport,
            ttl := min addr.ttl 300, context_used := cu5,
            negotiation_required := false }
        .tailored { t0 with signature := sign_document H (tailoredPayload t0) secret }

/-! ## Negotiation endpoint (`resolver/main.py::negotiate_comms`) -/

structure NegotiateReq where
  agent_id : String
  proposed_qos : Option (List (String × ℚ)) := none
  proposed_cost_limit : Option ℚ := none

structure CommsSpec where
  protocol : String
  encryption : String
  auth_method : String
  max_latency_ms : ℚ
  session_duration_s : ℚ
deriving DecidableEq, Repr

structure NegotiateResp where
  status : String
  comms_spec : CommsSpec
  agent_id : String
  message : String
deriving DecidableEq, Repr

/-- The proposed latency: `(req.proposed_qos or {}).get("max_latency_ms",
1000)`. -/
def proposedLatency (req : NegotiateReq) : ℚ :=
  (dGet ((req.proposed_qos).getD []) "max_latency_ms").getD 1000

/-- Embeds `POST /negotiate` (`negotiate_comms`): accept with the proposed
latency when a deployment record exists with load `< 0.8`, otherwise
counter with the latency raised to at least 2000. -/
def negotiateComms (deps : List (String × DeploymentRec)) (req : NegotiateReq) :
    NegotiateResp :=
  let spec : CommsSpec :=
    { protocol := "https", encryption := "TLS-1.3", auth_method := "jwt",
      max_latency_ms := proposedLatency req, session_duration_s := 3600 }
  let lowLoad :=
    match dGet deps req.agent_id with
    | some d => decide (d.current_load < 0.8)
    | none => false
  if lowLoad then
    { status := "accepted", comms_spec := spec, agent_id := req.agent_id,
      message := "Negotiation accepted — comms channel ready" }
  else
    { status := "counter",
      comms_spec := { spec with max_latency_ms := max spec.max_latency_ms 2000 },
      agent_id := req.agent_id,
      message := "Agent under load — adjusted QoS constraints" }

/-! ## Concrete instances used by witnesses and counterexamples -/

/-- A concrete stand-in digest: the byte-sum of the data, repeated.  Any
digest distinguishing the two canonical payloads below would do. -/
def sumH : List Nat → List Nat → List Nat :=
  fun d _ => List.replicate 32 ((d.foldl (· + ·) 0) % 256)

def zeroH : List Nat → List Nat → List Nat := fun _ _ => List.replicate 32 0

def exAddr : AgentAddrF :=
  { agent_id := "agent-1", agent_name := "urn:agent:demo",
    primary_facts_url := "http://a/facts" }

def shortTtlAddr : AgentAddrF :=
  { agent_id := "a1", agent_name := "n1", primary_facts_url := "u", ttl := 1 }

def shortTtlDict : AgentDict :=
  { agent_id := "a1", agent_name := "agent-one", facts_url := "http://a1/facts",
    ttl := 1, registered_at := .stamp 0 }

def widgetAgent : AgentDict :=
  { agent_id := "w1", agent_name := "widget-one", facts_url := "http://w1",
    skills := ["", "abc"], ttl := 3600, registered_at := .stamp 0 }

def widgetReq : ResolveReq := { query := "abc", skill_hint := "" }

def hintAgent : AgentDict :=
  { agent_id := "w1", agent_name := "widget-one", facts_url := "http://w1",
    skills := ["s1"], ttl := 3600, registered_at := .stamp 0 }

def hintReq : ResolveReq := { query := "", skill_hint := "s1" }

/-- The single row `POST /resolve` returns for `hintReq` against a
registry holding only `hintAgent` at time 0. -/
def hintResolved : ResolvedAgent :=
  { agent_id := "w1", agent_name := "widget-one", facts_url := "http://w1",
    skills := ["s1"], region := none, relevance_score := 1,
    context_score := 3/5, combined_score := 21/25, matched_skill := "s1",
    match_reason := "exact" }

def zonedAddr : AgentAddrF :=
  { agent_id := "a2", agent_name := "n2", primary_facts_url := "u2",
    zone := some "z1" }

def ztCtx : RequesterCtx := { security_level := some "zero-trust" }

def busyDeps : List (String × DeploymentRec) :=
  [("a9", { agent_id := "a9", current_load := 0.9 })]

def latencyReq : NegotiateReq :=
  { agent_id := "a9", proposed_qos := some [("max_latency_ms", 3000)] }

/-! ## Dictionary lemmas -/

theorem dGet_dIns_self {α : Type} (l : List (String × α)) (k : String) (v : α) :
    dGet (dIns l k v) k = some v := by
  induction l with
  | nil => simp [dIns, dGet]
  | cons p rest ih =>
      obtain ⟨k', v'⟩ := p
      by_cases h : k' = k
      · simp [dIns, h, dGet]
      · simp [dIns, h, dGet, ih]

theorem dGet_dIns_ne {α : Type} (l : List (String × α)) (k k' : String) (v : α)
    (h : k' ≠ k) : dGet (dIns l k v) k' = dGet l k' := by
  induction l with
  | nil => simp [dIns, dGet, Ne.symm h]
  | cons p rest ih =>
      obtain ⟨k'', v''⟩ := p
      by_cases hk : k'' = k
      · subst hk
        simp [dIns, dGet, Ne.symm h]
      · simp [dIns, hk, dGet, ih]

theorem dCount_dIns {α : Type} (l : List (String × α)) (k : String) (v : α) :
    dCount (dIns l k v) k = max 1 (dCount l k) := by
  induction l with
  | nil => simp [dIns, dCount]
  | cons p rest ih =>
      obtain ⟨k', v'⟩ := p
      by_cases h : k' = k
      · simp [dIns, h, dCount]
        try omega
      · simp [dIns, h, dCount, ih]

theorem length_dIns {α : Type} (l : List (String × α)) (k : String) (v : α) :
    (dIns l k v).length = if (dGet l k).isSome then l.length else l.length + 1 := by
  induction l with
  | nil => simp [dIns, dGet]
  | cons p rest ih =>
      obtain ⟨k', v'⟩ := p
      by_cases h : k' = k
      · simp [dIns, h, dGet]
      · simp only [dIns, if_neg h, dGet, List.length_cons, ih]
        by_cases hs : (dGet rest k).isSome <;> simp [hs]

theorem dGet_mem {α : Type} (l : List (String × α)) (k : String) (v : α)
    (h : dGet l k = some v) : (k, v) ∈ l := by
  induction l with
  | nil => simp [dGet] at h
  | cons p rest ih =>
      obtain ⟨k', v'⟩ := p
      by_cases hk : k' = k
      · subst hk
        simp [dGet] at h
        subst h
        exact List.mem_cons_self _ _
      · simp only [dGet, if_neg hk] at h
        exact List.mem_cons_of_mem _ (ih h)

theorem dGet_eq_none_of_dCount_zero {α : Type} (l : List (String × α)) (k : String)
    (h : dCount l k = 0) : dGet l k = none := by
  induction l with
  | nil => simp [dGet]
  | cons p rest ih =>
      obtain ⟨k', v'⟩ := p
      by_cases hk : k' = k
      · simp [dCount, hk] at h
      · simp only [dCount, if_neg hk] at h
        simp only [dGet, if_neg hk]
        exact ih (by omega)

theorem dGet_dPop_self {α : Type} (l : List (String × α)) (k : String)
    (h : dCount l k ≤ 1) : dGet (dPop l k) k = none := by
  induction l with
  | nil => simp [dPop, dGet]
  | cons p rest ih =>
      obtain ⟨k', v'⟩ := p
      by_cases hk : k' = k
      · simp only [dPop, if_pos hk]
        apply dGet_eq_none_of_dCount_zero
        simp [dCount, hk] at h
        omega
      · simp only [dPop, if_neg hk, dGet, if_neg hk]
        apply ih
        simp only [dCount, if_neg hk] at h
        omega

theorem dGet_dPop_ne {α : Type} (l : List (String × α)) (k k' : String)
    (h : k' ≠ k) : dGet (dPop l k) k' = dGet l k' := by
  induction l with
  | nil => simp [dPop]
  | cons p rest ih =>
      obtain ⟨k'', v''⟩ := p
      by_cases hk : k'' = k
      · subst hk
        simp [dPop, dGet, Ne.symm h]
      · simp only [dPop, if_neg hk, dGet, ih]

/-! ## Claims about registration and removal -/

/-- C7: registering a record whose `agent_id` already has a stored record
replaces it entirely (upsert, not merge): afterwards exactly one binding
exists for that id, it holds the second payload, and the total record
count is unchanged — both for the lean store and for the nanda-index
registry dict. -/
theorem register_upsert_replaces
    (st : NandaIndexStore) (a1 a2 : AgentAddrF) (t1 t2 : ℚ)
    (reg : IndexRegistry) (b1 b2 : RegisterReq) (u1 u2 : ℚ)
    (hid : a1.agent_id = a2.agent_id)
    (hcnt : dCount st.entries a2.agent_id ≤ 1)
    (hidb : b1.agent_id = b2.agent_id)
    (hcntb : dCount reg b2.agent_id ≤ 1) :
    dCount (storeRegister (storeRegister st a1 t1) a2 t2).entries a2.agent_id = 1 ∧
    dGet (storeRegister (storeRegister st a1 t1) a2 t2).entries a2.agent_id =
      some (mkCachedEntry a2 t2) ∧
    storeCount (storeRegister (storeRegister st a1 t1) a2 t2) =
      storeCount (storeRegister st a1 t1) ∧
    dCount (indexRegisterAgent (indexRegisterAgent reg b1 u1) b2 u2) b2.agent_id = 1 ∧
    dGet (indexRegisterAgent (indexRegisterAgent reg b1 u1) b2 u2) b2.agent_id =
      some (bodyToDict b2 u2) ∧
    (indexRegisterAgent (indexRegisterAgent reg b1 u1) b2 u2).length =
      (indexRegisterAgent reg b1 u1).length := by
  refine ⟨?_, ?_, ?_, ?_, ?_, ?_⟩
  · simp only [storeRegister, hid, dCount_dIns]
    omega
  · simp only [storeRegister, hid, dGet_dIns_self]
  · simp only [storeCount, storeRegister, hid]
    rw [length_dIns, if_pos]
    rw [dGet_dIns_self]
    rfl
  · simp only [indexRegisterAgent, hidb, dCount_dIns]
    omega
  · simp only [indexRegisterAgent, hidb, dGet_dIns_self]
  · simp only [indexRegisterAgent, hidb]
    rw [length_dIns, if_pos]
    rw [dGet_dIns_self]
    rfl

/-- C7 witness: a concrete double registration under one id. -/
theorem register_upsert_replaces_witness :
    dCount (storeRegister (storeRegister emptyStore shortTtlAddr 0)
      { shortTtlAddr with primary_facts_url := "u2" } 1).entries "a1" = 1 ∧
    dGet (storeRegister (storeRegister emptyStore shortTtlAddr 0)
      { shortTtlAddr with primary_facts_url := "u2" } 1).entries "a1" =
      some (mkCachedEntry { shortTtlAddr with primary_facts_url := "u2" } 1) := by
  have h := register_upsert_replaces emptyStore shortTtlAddr
    { shortTtlAddr with primary_facts_url := "u2" } 0 1 []
    { agent_id := "x", agent_name := "n", facts_url := "u" }
    { agent_id := "x", agent_name := "n", facts_url := "u2" } 0 1
    rfl (by decide) rfl (by decide)
  exact ⟨h.1, h.2.1⟩

/-- C8 (amended): the store-level remove is idempotent and silent — an
absent id returns the found-flag `false` with the store unchanged, a
present id deletes the record and its current name-index binding, and a
repeated remove is a no-op — while the HTTP `DELETE` handlers of both
services answer 404 for an absent id. -/
theorem remove_idempotent_store (st : NandaIndexStore) (agent_id : String)
    (reg : IndexRegistry) :
    (dGet st.entries agent_id = none →
      storeRemove st agent_id = (st, false) ∧
      deregisterAgent st agent_id = .error "404: Agent not found") ∧
    (∀ e, dGet st.entries agent_id = some e →
      dCount st.entries agent_id ≤ 1 →
      dCount st.nameIndex e.addr.agent_name ≤ 1 →
      (storeRemove st agent_id).2 = true ∧
      dGet (storeRemove st agent_id).1.entries agent_id = none ∧
      dGet (storeRemove st agent_id).1.nameIndex e.addr.agent_name = none ∧
      storeRemove (storeRemove st agent_id).1 agent_id =
        ((storeRemove st agent_id).1, false)) ∧
    (dGet reg agent_id = none →
      indexDeleteAgent reg agent_id = .error "404: Agent not found.") := by
  refine ⟨fun h => ?_, fun e he hc1 hc2 => ?_, fun h => ?_⟩
  · constructor
    · simp [storeRemove, h]
    · simp [deregisterAgent, storeRemove, h]
  · refine ⟨?_, ?_, ?_, ?_⟩
    · simp [storeRemove, he]
    · simp only [storeRemove, he]
      exact dGet_dPop_self _ _ hc1
    · simp only [storeRemove, he]
      exact dGet_dPop_self _ _ hc2
    · simp only [storeRemove, he]
      simp [storeRemove, dGet_dPop_self _ _ hc1]
  · simp [indexDeleteAgent, h]

/-- C8 witness: a present id is removed together with its name binding;
a repeated removal reports `false` without change. -/
theorem remove_idempotent_store_witness :
    (storeRemove (storeRegister emptyStore shortTtlAddr 0) "a1").2 = true ∧
    dGet (storeRemove (storeRegister emptyStore shortTtlAddr 0) "a1").1.entries "a1" = none ∧
    deregisterAgent emptyStore "ghost" = .error "404: Agent not found" := by
  have h := remove_idempotent_store (storeRegister emptyStore shortTtlAddr 0) "a1" []
  have hg : dGet (storeRegister emptyStore shortTtlAddr 0).entries "a1" =
      some (mkCachedEntry shortTtlAddr 0) := dGet_dIns_self _ _ _
  have h2 := (h.2.1 (mkCachedEntry shortTtlAddr 0) hg (by decide) (by decide))
  have h0 := remove_idempotent_store emptyStore "ghost" []
  exact ⟨h2.1, h2.2.1, (h0.1 (by decide)).2⟩

/-- C8 counterexample: the claim says removal of an absent id "succeeds
without error", but both `DELETE` endpoints return 404. -/
theorem delete_endpoint_404_cex :
    deregisterAgent emptyStore "ghost" = .error "404: Agent not found" ∧
    indexDeleteAgent [] "ghost" = .error "404: Agent not found." :=
  ⟨rfl, rfl⟩

/-- C10: re-registering the same id under a different name leaves the old
name's secondary-index binding behind: the old name still resolves, and
to the agent's *current* record; the alias outlives everything up to the
explicit removal of the id, which then makes the old name unresolvable. -/
theorem stale_name_alias_persists
    (st : NandaIndexStore) (a1 a2 : AgentAddrF) (t1 t2 now : ℚ)
    (hid : a1.agent_id = a2.agent_id) (hidne : a1.agent_id ≠ "")
    (hname : a1.agent_name ≠ a2.agent_name)
    (hlive : now ≤ t2 + (a2.ttl : ℚ))
    (hcnt : dCount st.entries a1.agent_id ≤ 1) :
    storeResolveByName (storeRegister (storeRegister st a1 t1) a2 t2)
      a1.agent_name now = some a2 ∧
    storeResolveByName
      ((storeRemove (storeRegister (storeRegister st a1 t1) a2 t2) a1.agent_id).1)
      a1.agent_name now = none := by
  have hni : dGet (storeRegister (storeRegister st a1 t1) a2 t2).nameIndex
      a1.agent_name = some a1.agent_id := by
    simp only [storeRegister]
    rw [dGet_dIns_ne _ _ _ _ hname, dGet_dIns_self]
  have hent : dGet (storeRegister (storeRegister st a1 t1) a2 t2).entries
      a1.agent_id = some (mkCachedEntry a2 t2) := by
    simp only [storeRegister, hid, dGet_dIns_self]
  have hnx : entryExpired (mkCachedEntry a2 t2) now = false := by
    simp only [entryExpired, mkCachedEntry, decide_eq_false_iff_not, not_lt]
    exact hlive
  simp only [mkCachedEntry] at hnx
  rw [hid] at hcnt
  constructor
  · simp only [storeResolveByName, hni, hidne, ne_eq, not_false_eq_true, if_true,
      storeResolveById, hent, mkCachedEntry, hnx, Bool.false_eq_true, if_false]
  · simp only [storeRemove, hent, storeResolveByName, mkCachedEntry]
    rw [dGet_dPop_ne _ _ _ hname, hni]
    simp only [hidne, ne_eq, not_false_eq_true, if_true, storeResolveById]
    rw [hid, dGet_dPop_self]
    simp only [storeRegister, hid, dCount_dIns]
    omega

/-- C10 witness: two concrete registrations of one id under two names. -/
theorem stale_name_alias_persists_witness :
    storeResolveByName
      (storeRegister (storeRegister emptyStore shortTtlAddr 0)
        { shortTtlAddr with agent_name := "n1b" } 0) "n1" (1/2) =
      some { shortTtlAddr with agent_name := "n1b" } := by
  have h := stale_name_alias_persists emptyStore shortTtlAddr
    { shortTtlAddr with agent_name := "n1b" } 0 0 (1/2)
    rfl (by decide) (by decide) (by norm_num [shortTtlAddr]) (by decide)
  exact h.1

/-! ## Claims about signing -/

theorem stringMk_length (l : List Char) : (String.mk l).length = l.length := rfl

theorem hexEncode_length (bs : List Nat) : (hexEncode bs).length = 2 * bs.length := by
  induction bs with
  | nil => rfl
  | cons b rest ih =>
      rw [hexEncode, stringMk_length] at ih ⊢
      simp only [hexEncodeChars, List.length_cons]
      omega

/-- C4: signing is deterministic (it is a pure function of payload and
key), produces a fixed-length 64-character hex string, and always
round-trips through `verify_signature` — for every digest function of
the assumed 32-byte output size, every payload and every key. -/
theorem sign_document_deterministic_roundtrip
    (H : List Nat → List Nat → List Nat)
    (hlen : ∀ d k, (H d k).length = 32)
    (payload : List (String × JVal)) (key : String) :
    sign_document H payload key = sign_document H payload key ∧
    (sign_document H payload key).length = 64 ∧
    verify_signature H payload (sign_document H payload key) key = true := by
  refine ⟨rfl, ?_, ?_⟩
  · rw [sign_document, hexEncode_length, hlen]
  · simp [verify_signature]

/-- C4 witness: a concrete digest, payload and key. -/
theorem sign_document_deterministic_roundtrip_witness :
    (sign_document zeroH [("a", JVal.jstr "b")] "k").length = 64 ∧
    verify_signature zeroH [("a", JVal.jstr "b")]
      (sign_document zeroH [("a", JVal.jstr "b")] "k") "k" = true := by
  have h := sign_document_deterministic_roundtrip zeroH
    (fun _ _ => by simp [zeroH]) [("a", JVal.jstr "b")] "k"
  exact ⟨h.2.1, h.2.2⟩

set_option maxRecDepth 10000 in
/-- C3 (code bug): `register_agent` computes the signature *before*
stamping `registered_at`, so the stored record's signature covers a
canonical serialisation that differs from the one `/verify` recomputes;
verification of a freshly registered record fails. -/
theorem register_sign_then_stamp_verify_fails :
    (registerAgent sumH "secret" emptyStore exAddr "2025-01-01T00:00:00" 0).1.registered_at
        = some "2025-01-01T00:00:00" ∧
    (registerAgent sumH "secret" emptyStore exAddr "2025-01-01T00:00:00" 0).1.signature
        = sign_document sumH (addrPayload exAddr) "secret" ∧
    canonicalize (addrPayload (registerAgent sumH "secret" emptyStore exAddr "2025-01-01T00:00:00" 0).1)
        ≠ canonicalize (addrPayload exAddr) ∧
    verifyAgentAddr sumH "secret"
        (registerAgent sumH "secret" emptyStore exAddr "2025-01-01T00:00:00" 0).1 = false := by
  refine ⟨rfl, rfl, ?_, ?_⟩
  · decide
  · decide

/-! ## Claims about TTL expiry across resolution paths -/

/-- C1 (amended): in the lean store, `resolve_by_id` and
`resolve_by_name` return a freshly registered record exactly while
`now ≤ registered_at + ttl` (the boundary instant is still served), and
`list_all` / `discover` only ever emit records backed by an entry whose
`expires_at` has not passed; the nanda-index `lookup`, `list` and
`search` paths never consult TTL and serve any stored record. -/
theorem ttl_expiry_paths
    (st : NandaIndexStore) (a : AgentAddrF) (now_r now : ℚ)
    (role cap jur qy : Option String)
    (reg : IndexRegistry) (agent_id : String) (d : AgentDict)
    (skills region q : Option String)
    (hid : a.agent_id ≠ "")
    (hreg : dGet reg agent_id = some d) :
    (storeResolveById (storeRegister st a now_r) a.agent_id now = some a ↔
        now ≤ now_r + (a.ttl : ℚ)) ∧
    (storeResolveByName (storeRegister st a now_r) a.agent_name now = some a ↔
        now ≤ now_r + (a.ttl : ℚ)) ∧
    (∀ b ∈ storeListAll st now, ∃ p ∈ st.entries, p.2.addr = b ∧ now ≤ p.2.expires_at) ∧
    (∀ b ∈ storeDiscover st now role cap jur qy,
        ∃ p ∈ st.entries, p.2.addr = b ∧ ¬ (p.2.expires_at < now)) ∧
    lookupAgent reg agent_id = .ok d ∧
    d ∈ listAgents reg ∧
    (searchKeep (searchKeywords skills) (searchRegionFilter region) (searchQFilter q) d = true →
        d ∈ searchAgents reg skills region q) := by
  have he : dGet (storeRegister st a now_r).entries a.agent_id =
      some (mkCachedEntry a now_r) := dGet_dIns_self _ _ _
  have hbyid : storeResolveById (storeRegister st a now_r) a.agent_id now = some a ↔
      now ≤ now_r + (a.ttl : ℚ) := by
    simp only [storeResolveById, he, mkCachedEntry, entryExpired, gt_iff_lt]
    by_cases h : now_r + (a.ttl : ℚ) < now
    · simp [h, not_le.mpr h]
    · simp [h, not_lt.mp h]
  refine ⟨hbyid, ?_, ?_, ?_, ?_, ?_, ?_⟩
  · have hn : dGet (storeRegister st a now_r).nameIndex a.agent_name =
        some a.agent_id := dGet_dIns_self _ _ _
    simp only [storeResolveByName, hn, hid, ne_eq, not_false_eq_true, if_true]
    exact hbyid
  · intro b hb
    simp only [storeListAll, List.mem_map, List.mem_filter] at hb
    obtain ⟨p, ⟨hp, hle⟩, rfl⟩ := hb
    exact ⟨p, hp, rfl, by simpa [ge_iff_le] using of_decide_eq_true hle⟩
  · intro b hb
    simp only [storeDiscover, List.mem_map, List.mem_filter] at hb
    obtain ⟨p, ⟨hp, hk⟩, rfl⟩ := hb
    refine ⟨p, hp, rfl, fun hexp => ?_⟩
    rw [discoverKeep, if_pos hexp] at hk
    exact Bool.false_ne_true hk
  · simp [lookupAgent, hreg]
  · exact List.mem_map.mpr ⟨(agent_id, d), dGet_mem _ _ _ hreg, rfl⟩
  · intro hk
    exact List.mem_filter.mpr ⟨List.mem_map.mpr ⟨(agent_id, d), dGet_mem _ _ _ hreg, rfl⟩, hk⟩

/-- C1 witness: a fresh short-TTL record resolves just before expiry and
the index lookup serves a stored record. -/
theorem ttl_expiry_paths_witness :
    (storeResolveById (storeRegister emptyStore shortTtlAddr 0) "a1" (1/2) =
        some shortTtlAddr ↔ (1/2 : ℚ) ≤ 0 + (shortTtlAddr.ttl : ℚ)) ∧
    lookupAgent [("a1", shortTtlDict)] "a1" = .ok shortTtlDict := by
  have h := ttl_expiry_paths emptyStore shortTtlAddr 0 (1/2) none none none none
    [("a1", shortTtlDict)] "a1" shortTtlDict none none none
    (by decide) rfl
  exact ⟨h.1, h.2.2.2.2.1⟩

/-- C1 counterexample: a record whose TTL has elapsed is still served by
the nanda-index `lookup` path, and the store still serves the record at
the exact boundary `now = registered_at + ttl`, where the claim's strict
`now < registered_at + ttl` is already false. -/
theorem ttl_expiry_not_uniform_cex :
    ((10 : ℚ) > 0 + (shortTtlDict.ttl : ℚ)) ∧
    shortTtlDict.registered_at = .stamp 0 ∧
    lookupAgent [("a1", shortTtlDict)] "a1" = .ok shortTtlDict ∧
    storeResolveById (storeRegister emptyStore shortTtlAddr 0) "a1" 1 = some shortTtlAddr ∧
    ¬ ((1 : ℚ) < 0 + (shortTtlAddr.ttl : ℚ)) := by
  refine ⟨by norm_num [shortTtlDict], rfl, rfl, ?_, by norm_num [shortTtlAddr]⟩
  norm_num [storeResolveById, storeRegister, emptyStore, dIns, dGet, mkCachedEntry,
    entryExpired, shortTtlAddr]

/-! ## Claims about the relevance matcher -/

theorem mem_exactMatches {reg : IndexRegistry} {hint : String} {c : Candidate}
    (hc : c ∈ exactMatches reg hint) :
    c.match_reason = "exact" ∧ c.relevance_score = 1 ∧ c.matched_skill = hint := by
  simp only [exactMatches, List.mem_filterMap] at hc
  obtain ⟨a, -, ha⟩ := hc
  by_cases h : hint ∈ a.skills
  · rw [if_pos h] at ha
    cases ha
    exact ⟨rfl, rfl, rfl⟩
  · rw [if_neg h] at ha
    cases ha

theorem mem_semanticMatches {E : Type} {reg : IndexRegistry}
    {emb : List ((String × String) × E)} {e : E} {sim : E → E → ℚ} {c : Candidate}
    (hc : c ∈ semanticMatches reg emb e sim) : c.match_reason = "semantic" := by
  simp only [semanticMatches, List.mem_filterMap] at hc
  obtain ⟨kv, -, ha⟩ := hc
  by_cases h : sim e kv.2 ≥ 0.6
  · rw [if_pos h] at ha
    cases hg : dGet reg kv.1.1 with
    | some a => rw [hg] at ha; cases ha; rfl
    | none => rw [hg] at ha; cases ha
  · rw [if_neg h] at ha
    cases ha

theorem mem_substrMatches {reg : IndexRegistry} {query : String} {c : Candidate}
    (hc : c ∈ substrMatches reg query) : c.match_reason = "substring" := by
  simp only [substrMatches, List.mem_filterMap] at hc
  obtain ⟨a, -, ha⟩ := hc
  cases hh : substrFirstHit (queryKeywords query) a.skill_descriptions a.skills with
  | some hit => rw [hh] at ha; cases ha; rfl
  | none => rw [hh] at ha; cases ha

theorem exactMatches_ne_nil {reg : IndexRegistry} {hint : String}
    {p : String × AgentDict} (hp : p ∈ reg) (hs : hint ∈ p.2.skills) :
    exactMatches reg hint ≠ [] := by
  apply List.ne_nil_of_mem (a :=
    { agent := p.2, matched_skill := hint, relevance_score := 1,
      match_reason := "exact" })
  simp only [exactMatches, List.mem_filterMap]
  exact ⟨p.2, List.mem_map.mpr ⟨p, hp, rfl⟩, by rw [if_pos hs]⟩

theorem mem_resolveAgents {E : Type} {reg : IndexRegistry}
    {emb : List ((String × String) × E)} {useEmb : Bool} {qEmb : Option E}
    {sim : E → E → ℚ} {req : ResolveReq} {now : ℚ} {r : ResolvedAgent}
    (hr : r ∈ resolveAgents reg emb useEmb qEmb sim req now) :
    ∃ c ∈ resolveCandidates reg emb useEmb qEmb sim req.query req.skill_hint,
      r = mkResolved c (contextScore (pyUpper req.ctxRegion) now c.agent) ∧
      req.min_score ≤ r.combined_score := by
  simp only [resolveAgents, List.mem_insertionSort, List.mem_filter,
    List.mem_map, decide_eq_true_eq, ge_iff_le] at hr
  obtain ⟨⟨c, hc, rfl⟩, hge⟩ := hr
  exact ⟨c, hc, rfl, hge⟩

/-- C6: every candidate `POST /resolve` returns scores at least the
requested `min_score`, and the returned list is sorted by descending
`combined_score` — for every registry state, embedding store, similarity
function and request. -/
theorem resolve_min_score_sorted {E : Type} (reg : IndexRegistry)
    (emb : List ((String × String) × E)) (useEmb : Bool) (qEmb : Option E)
    (sim : E → E → ℚ) (req : ResolveReq) (now : ℚ) (r : ResolvedAgent)
    (hr : r ∈ resolveAgents reg emb useEmb qEmb sim req now) :
    req.min_score ≤ r.combined_score ∧
    (resolveAgents reg emb useEmb qEmb sim req now).Sorted
      (fun x y => y.combined_score ≤ x.combined_score) := by
  constructor
  · exact (mem_resolveAgents hr).choose_spec.2.2
  · haveI : IsTotal ResolvedAgent (fun x y => y.combined_score ≤ x.combined_score) :=
      ⟨fun a b => le_total b.combined_score a.combined_score⟩
    haveI : IsTrans ResolvedAgent (fun x y => y.combined_score ≤ x.combined_score) :=
      ⟨fun _ _ _ hab hbc => le_trans hbc hab⟩
    exact List.sorted_insertionSort _ _

/-- C6 witness: the concrete exact-match scenario; its single row scores
`21/25 ≥ 0.65` and a singleton list is sorted. -/
theorem resolve_min_score_sorted_witness :
    (0.65 : ℚ) ≤ hintResolved.combined_score := by
  have hU : pyUpper "" = "" := by decide
  have hmem : hintResolved ∈ resolveAgents (E := Unit) [("w1", hintAgent)] []
      false none (fun _ _ => 0) hintReq 0 := by
    norm_num [resolveAgents, resolveCandidates, tier1, tier2, exactMatches,
      hintAgent, hintReq, dGet, contextScore, mkResolved, hU, hintResolved,
      List.insertionSort, List.orderedInsert, ResolvedAgent.mk.injEq]
    refine ⟨_, ⟨by decide, rfl⟩, ?_⟩
    norm_num [inf_eq_min, min_def]
  exact (resolve_min_score_sorted (E := Unit) [("w1", hintAgent)] [] false none
    (fun _ _ => 0) hintReq 0 hintResolved hmem).1

/-- C5 (amended): tier precedence in `POST /resolve` — a returned
semantic candidate implies the (guarded) exact tier produced nothing, a
returned substring candidate implies both higher tiers produced nothing,
and whenever `skill_hint` is truthy (non-empty) and held verbatim by
some registered agent, every returned candidate is an exact match with
`relevance_score = 1`. -/
theorem resolve_tier_precedence {E : Type} (reg : IndexRegistry)
    (emb : List ((String × String) × E)) (useEmb : Bool) (qEmb : Option E)
    (sim : E → E → ℚ) (req : ResolveReq) (now : ℚ) (r : ResolvedAgent)
    (hr : r ∈ resolveAgents reg emb useEmb qEmb sim req now) :
    (req.skill_hint ≠ "" → (∃ p ∈ reg, req.skill_hint ∈ p.2.skills) →
        r.match_reason = "exact" ∧ r.relevance_score = 1) ∧
    (r.match_reason = "semantic" → req.skill_hint ≠ "" →
        exactMatches reg req.skill_hint = []) ∧
    (r.match_reason = "substring" →
        (req.skill_hint ≠ "" → exactMatches reg req.skill_hint = []) ∧
        (useEmb = true → req.query ≠ "" → ∀ e, qEmb = some e →
            semanticMatches reg emb e sim = [])) := by
  obtain ⟨c, hc, heq, -⟩ := mem_resolveAgents hr
  have hreason : r.match_reason = c.match_reason := by rw [heq]; rfl
  have hrel : r.relevance_score = c.relevance_score := by rw [heq]; rfl
  simp only [resolveCandidates] at hc
  by_cases hif : ((tier1 reg req.skill_hint ++
      tier2 reg emb useEmb qEmb sim req.query (tier1 reg req.skill_hint)).isEmpty ∧
      req.query ≠ "")
  · -- substring branch ran: both higher tiers were empty
    rw [if_pos hif] at hc
    have hcr : c.match_reason = "substring" := mem_substrMatches hc
    have hboth := hif.1
    rw [List.isEmpty_iff, List.append_eq_nil] at hboth
    obtain ⟨h1e, h2e⟩ := hboth
    refine ⟨?_, ?_, ?_⟩
    · rintro hhint ⟨p, hp, hs⟩
      exfalso
      apply exactMatches_ne_nil hp hs
      rwa [tier1, if_pos hhint] at h1e
    · intro hsem
      rw [hreason, hcr] at hsem
      exact absurd hsem (by decide)
    · intro _
      constructor
      · intro hhint
        rwa [tier1, if_pos hhint] at h1e
      · intro hu hq e he
        rw [tier2, if_pos ⟨by rw [h1e]; rfl, by rw [hu], hq⟩, he] at h2e
        simpa only [semanticOf] using h2e
  · rw [if_neg hif] at hc
    rcases List.mem_append.mp hc with hc1 | hc2
    · -- exact-tier candidate
      have h1 : c.match_reason = "exact" ∧ c.relevance_score = 1 := by
        rw [tier1] at hc1
        by_cases hhint : req.skill_hint ≠ ""
        · rw [if_pos hhint] at hc1
          exact ⟨(mem_exactMatches hc1).1, (mem_exactMatches hc1).2.1⟩
        · rw [if_neg hhint] at hc1
          cases hc1
      refine ⟨fun _ _ => ⟨hreason ▸ h1.1, hrel ▸ h1.2⟩, ?_, ?_⟩
      · intro hsem
        rw [hreason, h1.1] at hsem
        exact absurd hsem (by decide)
      · intro hsub
        rw [hreason, h1.1] at hsub
        exact absurd hsub (by decide)
    · -- semantic-tier candidate
      have h2r : c.match_reason = "semantic" := by
        rw [tier2] at hc2
        by_cases hg : ((tier1 reg req.skill_hint).isEmpty ∧ useEmb ∧ req.query ≠ "")
        · rw [if_pos hg] at hc2
          cases hqe : qEmb with
          | some e =>
              rw [hqe] at hc2
              simp only [semanticOf] at hc2
              exact mem_semanticMatches hc2
          | none =>
              rw [hqe] at hc2
              simp only [semanticOf] at hc2
              cases hc2
        · rw [if_neg hg] at hc2
          cases hc2
      have h1e : tier1 reg req.skill_hint = [] := by
        rw [tier2] at hc2
        by_cases hg : ((tier1 reg req.skill_hint).isEmpty ∧ useEmb ∧ req.query ≠ "")
        · exact List.isEmpty_iff.mp hg.1
        · rw [if_neg hg] at hc2
          cases hc2
      refine ⟨?_, ?_, ?_⟩
      · rintro hhint ⟨p, hp, hs⟩
        exfalso
        apply exactMatches_ne_nil hp hs
        rwa [tier1, if_pos hhint] at h1e
      · intro _ hhint
        rwa [tier1, if_pos hhint] at h1e
      · intro hsub
        rw [hreason, h2r] at hsub
        exact absurd hsub (by decide)

/-- C5 witness: with the truthy hint `"s1"` held verbatim by a
registered agent, the returned row is exact with relevance 1. -/
theorem resolve_tier_precedence_witness :
    hintResolved.match_reason = "exact" ∧ hintResolved.relevance_score = 1 := by
  have hU : pyUpper "" = "" := by decide
  have hmem : hintResolved ∈ resolveAgents (E := Unit) [("w1", hintAgent)] []
      false none (fun _ _ => 0) hintReq 0 := by
    norm_num [resolveAgents, resolveCandidates, tier1, tier2, exactMatches,
      hintAgent, hintReq, dGet, contextScore, mkResolved, hU, hintResolved,
      List.insertionSort, List.orderedInsert, ResolvedAgent.mk.injEq]
    refine ⟨_, ⟨by decide, rfl⟩, ?_⟩
    norm_num [inf_eq_min, min_def]
  exact (resolve_tier_precedence (E := Unit) [("w1", hintAgent)] [] false none
    (fun _ _ => 0) hintReq 0 hintResolved hmem).1 (by decide)
    ⟨("w1", hintAgent), by decide, by decide⟩

set_option maxRecDepth 10000 in
/-- C5 counterexample: the claim as stated quantifies over every query;
with the default (empty, hence falsy) `skill_hint` and an agent whose
skill list contains `""` verbatim, the exact tier is skipped and a
substring candidate is returned. -/
theorem exact_tier_empty_hint_cex :
    ("" ∈ widgetAgent.skills) ∧ widgetReq.skill_hint = "" ∧
    ∃ r ∈ resolveAgents (E := Unit) [("w1", widgetAgent)] [] false none
        (fun _ _ => 0) widgetReq 0,
      r.match_reason = "substring" ∧ ¬ r.match_reason = "exact" := by
  have hq : queryKeywords "abc" = ["abc"] := by decide
  have hc1 : containsSub (pyLower "" ++ " " ++ pyLower "") "abc" = false := by decide
  have hc2 : containsSub (pyLower "abc" ++ " " ++ pyLower "") "abc" = true := by decide
  have hU : pyUpper "" = "" := by decide
  refine ⟨by decide, rfl, ?_⟩
  norm_num [resolveAgents, resolveCandidates, tier1, tier2, exactMatches,
    semanticMatches, substrMatches, hq, hc1, hc2, hU, substrFirstHit, dGet,
    contextScore, mkResolved, widgetAgent, widgetReq,
    List.insertionSort, List.orderedInsert]
  refine ⟨_, ⟨⟨_, ⟨⟨by decide, rfl⟩, rfl⟩⟩, ?_⟩, by decide⟩
  norm_num

/-! ## Claims about the adaptive resolver and negotiation -/

/-- C2 (amended): for a request whose agent name resolves to a record
and whose record triggers no zone referral, any of the three negotiation
triggers (missing required context learned from a successful facts
fetch, a zero-trust requester, target load above 0.9) yields a
`NegotiationInvitation` — never a `TailoredResponse` — whose reason
string names the highest-priority trigger that fired. -/
theorem adaptive_resolve_negotiation_triggers
    (H : List Nat → List Nat → List Nat) (secret : String)
    (zoneRefs : List (String × String)) (deps : List (String × DeploymentRec))
    (hav : ℚ → ℚ → ℚ → ℚ → ℚ) (addr : AgentAddrF) (factsOpt : Option FactsDoc)
    (ctx : RequesterCtx) (rand : Nat)
    (hz : ∀ z, optTruthy addr.zone = some z → dGet zoneRefs z = none)
    (htrig : missingContext factsOpt ctx ≠ [] ∨
      ctx.security_level = some "zero-trust" ∨
      (∃ d, dGet deps addr.agent_id = some d ∧ d.current_load > 0.9)) :
    adaptiveResolve H secret zoneRefs deps hav (some addr) factsOpt ctx rand =
      .invitation
        { agent_id := addr.agent_id,
          negotiation_url :=
            (match optTruthy addr.adaptive_resolver_url with
             | some u => u
             | none => addr.primary_facts_url) ++ "/negotiate",
          reason := negotiationReason deps addr factsOpt ctx,
          required_context := missingContext factsOpt ctx,
          trust_security_level := (optTruthy ctx.security_level).getD "authenticated",
          ttl := 60 } ∧
    (∀ t, adaptiveResolve H secret zoneRefs deps hav (some addr) factsOpt ctx rand ≠
      .tailored t) ∧
    (missingContext factsOpt ctx ≠ [] →
      negotiationReason deps addr factsOpt ctx =
        reasonMissing (missingContext factsOpt ctx)) ∧
    (missingContext factsOpt ctx = [] → ctx.security_level = some "zero-trust" →
      negotiationReason deps addr factsOpt ctx = reasonZeroTrust) ∧
    (∀ d, missingContext factsOpt ctx = [] →
      ¬ ctx.security_level = some "zero-trust" →
      dGet deps addr.agent_id = some d →
      negotiationReason deps addr factsOpt ctx = reasonHighLoad d.current_load) := by
  have hzr : (match optTruthy addr.zone with
      | some z => (dGet zoneRefs z).map (fun url => (z, url))
      | none => none) = (none : Option (String × String)) := by
    cases hz0 : optTruthy addr.zone with
    | none => rfl
    | some z => simp [hz z hz0]
  have hcond : (¬ (missingContext factsOpt ctx).isEmpty ∨
      ctx.security_level = some "zero-trust" ∨
      (match dGet deps addr.agent_id with
       | some d => decide (d.current_load > 0.9)
       | none => false) = true) := by
    rcases htrig with h | h | ⟨d, hd, hl⟩
    · exact Or.inl (by simpa [List.isEmpty_iff] using h)
    · exact Or.inr (Or.inl h)
    · refine Or.inr (Or.inr ?_)
      rw [hd]
      exact decide_eq_true hl
  have hmain : adaptiveResolve H secret zoneRefs deps hav (some addr) factsOpt ctx rand =
      .invitation
        { agent_id := addr.agent_id,
          negotiation_url :=
            (match optTruthy addr.adaptive_resolver_url with
             | some u => u
             | none => addr.primary_facts_url) ++ "/negotiate",
          reason := negotiationReason deps addr factsOpt ctx,
          required_context := missingContext factsOpt ctx,
          trust_security_level := (optTruthy ctx.security_level).getD "authenticated",
          ttl := 60 } := by
    simp only [adaptiveResolve, hzr]
    rw [if_pos hcond]
  refine ⟨hmain, fun t ht => ?_, ?_, ?_, ?_⟩
  · rw [hmain] at ht
    exact ResolveOutcome.noConfusion ht
  · intro h
    simp only [negotiationReason]
    rw [if_pos (by simpa [List.isEmpty_iff] using h)]
  · intro h hzt
    simp only [negotiationReason]
    rw [if_neg (by simp [h]), if_pos hzt]
  · intro d h hzt hd
    simp only [negotiationReason]
    rw [if_neg (by simp [h]), if_neg hzt, hd]
    rfl

/-- C2 witness: a zero-trust requester resolving a record with no zone
referral receives the invitation. -/
theorem adaptive_resolve_negotiation_triggers_witness :
    adaptiveResolve zeroH "secret" [] [] (fun _ _ _ _ => 0)
      (some exAddr) none ztCtx 0 =
      .invitation
        { agent_id := exAddr.agent_id,
          negotiation_url :=
            (match optTruthy exAddr.adaptive_resolver_url with
             | some u => u
             | none => exAddr.primary_facts_url) ++ "/negotiate",
          reason := negotiationReason [] exAddr none ztCtx,
          required_context := missingContext none ztCtx,
          trust_security_level := (optTruthy ztCtx.security_level).getD "authenticated",
          ttl := 60 } ∧
    negotiationReason [] exAddr none ztCtx = reasonZeroTrust := by
  have h := adaptive_resolve_negotiation_triggers zeroH "secret" [] []
    (fun _ _ _ _ => 0) exAddr none ztCtx 0
    (fun z hz0 => nomatch hz0) (Or.inr (Or.inl rfl))
  exact ⟨h.1, h.2.2.2.1 rfl rfl⟩

/-- C2 counterexample: the claim as stated covers every request, but a
zone referral short-circuits before the negotiation check — a zero-trust
requester gets a `Referral`, not a `NegotiationInvitation`. -/
theorem negotiation_trigger_referral_cex :
    ztCtx.security_level = some "zero-trust" ∧
    adaptiveResolve zeroH "s" [("z1", "http://ns")] [] (fun _ _ _ _ => 0)
      (some zonedAddr) none ztCtx 0 = .referral "n2" "http://ns" "z1" ∧
    ∀ inv, adaptiveResolve zeroH "s" [("z1", "http://ns")] [] (fun _ _ _ _ => 0)
      (some zonedAddr) none ztCtx 0 ≠ .invitation inv := by
  refine ⟨rfl, rfl, fun inv h => ?_⟩
  have hres : adaptiveResolve zeroH "s" [("z1", "http://ns")] [] (fun _ _ _ _ => 0)
      (some zonedAddr) none ztCtx 0 = .referral "n2" "http://ns" "z1" := rfl
  rw [hres] at h
  exact ResolveOutcome.noConfusion h

/-- C9 (amended): with a deployment record present, load below 0.8 gets
`accepted` with the proposed latency honoured unchanged; otherwise the
response is `counter` with the latency set to `max(proposal, 2000)` —
never below the proposal, and strictly above it only when the proposal
was under 2000. -/
theorem negotiate_load_outcomes (deps : List (String × DeploymentRec))
    (req : NegotiateReq) (d : DeploymentRec)
    (hd : dGet deps req.agent_id = some d) :
    (d.current_load < 0.8 →
      negotiateComms deps req =
        { status := "accepted",
          comms_spec :=
            { protocol := "https", encryption := "TLS-1.3",
              auth_method := "jwt", max_latency_ms := proposedLatency req,
              session_duration_s := 3600 },
          agent_id := req.agent_id,
          message := "Negotiation accepted — comms channel ready" }) ∧
    (¬ d.current_load < 0.8 →
      (negotiateComms deps req).status = "counter" ∧
      (negotiateComms deps req).comms_spec.max_latency_ms =
        max (proposedLatency req) 2000 ∧
      proposedLatency req ≤ (negotiateComms deps req).comms_spec.max_latency_ms) := by
  constructor
  · intro h
    simp only [negotiateComms, hd]
    rw [if_pos (decide_eq_true h)]
  · intro h
    have hres : negotiateComms deps req =
        { status := "counter",
          comms_spec :=
            { protocol := "https", encryption := "TLS-1.3",
              auth_method := "jwt",
              max_latency_ms := max (proposedLatency req) 2000,
              session_duration_s := 3600 },
          agent_id := req.agent_id,
          message := "Agent under load — adjusted QoS constraints" } := by
      simp only [negotiateComms, hd]
      rw [if_neg]
      simp [h]
    rw [hres]
    exact ⟨rfl, rfl, le_max_left _ _⟩

/-- C9 witness: a lightly loaded target accepts the proposed latency. -/
theorem negotiate_load_outcomes_witness :
    negotiateComms [("a9", { agent_id := "a9", current_load := 0.5 })]
      { agent_id := "a9", proposed_qos := some [("max_latency_ms", 700)] } =
      { status := "accepted",
        comms_spec :=
          { protocol := "https", encryption := "TLS-1.3",
            auth_method := "jwt",
            max_latency_ms := proposedLatency
              { agent_id := "a9", proposed_qos := some [("max_latency_ms", 700)] },
            session_duration_s := 3600 },
        agent_id := "a9",
        message := "Negotiation accepted — comms channel ready" } := by
  have h := negotiate_load_outcomes
    [("a9", { agent_id := "a9", current_load := 0.5 })]
    { agent_id := "a9", proposed_qos := some [("max_latency_ms", 700)] }
    { agent_id := "a9", current_load := 0.5 }
    rfl
  exact h.1 (by norm_num)

/-- C9 counterexample: under load, a proposal of 3000 ms is countered
with 3000 ms — unchanged, not relaxed upward. -/
theorem negotiate_counter_latency_cex :
    (negotiateComms busyDeps latencyReq).status = "counter" ∧
    proposedLatency latencyReq = 3000 ∧
    (negotiateComms busyDeps latencyReq).comms_spec.max_latency_ms = 3000 ∧
    ¬ (3000 < (negotiateComms busyDeps latencyReq).comms_spec.max_latency_ms) := by
  refine ⟨?_, rfl, ?_, ?_⟩ <;>
    norm_num [negotiateComms, busyDeps, latencyReq, proposedLatency, dGet]
